import Mathlib

/-!
Shallow embedding of the country-currency service (`main.go`).

Modelling conventions:
* `float64` values (exchange rates, estimated GDP) are modelled as `ℚ`;
  pointer-typed (nullable) columns as `Option`.
* The relational store is a `List Country` in primary-key (insertion) order;
  `First` on a `WHERE` clause is `List.find?`.
* Go `map[string]string` entries of the currencies array are association
  lists whose lookup defaults to the empty string, like Go map indexing.
* `rand.Float64()*(2000-1000)+1000` is modelled by an ambient stream
  `ms : Nat → ℚ` of multipliers, one consumed per draw; the range
  hypothesis `1000 ≤ m < 2000` is imposed in the theorems.
* GORM `Updates` with a struct argument only writes non-zero fields
  (nil pointers, empty strings, zero integers and the zero time are
  skipped); `gormUpdates` reproduces this merge.
* The two outbound fetches are modelled by `Upstream` records carrying a
  possible transport error, an HTTP status and the parsed body.
-/

/-- Persisted row, mirroring the `Country` GORM model. -/
structure Country where
  name : String
  capital : Option String
  region : Option String
  population : Int
  currencyCode : Option String
  exchangeRate : Option ℚ
  estimatedGDP : Option ℚ
  flagURL : Option String
  lastRefreshedAt : Nat
  deriving Repr, DecidableEq

/-- Upstream record from the countries source, mirroring `RestCountry`. -/
structure RestCountry where
  name : String
  capital : String
  region : String
  population : Int
  flag : String
  currencies : List (List (String × String))
  deriving Repr, DecidableEq

/-- Go map indexing `m["code"]`: value of the key, or `""` when absent. -/
def mapGet (m : List (String × String)) (k : String) : String :=
  match m.find? (fun kv => kv.1 == k) with
  | some kv => kv.2
  | none => ""

/-- Lookup in the fetched exchange-rate table (`rates[code]`). -/
def lookupRate (rates : List (String × ℚ)) (code : String) : Option ℚ :=
  (rates.find? (fun kv => kv.1 == code)).map (fun kv => kv.2)

/-- `nilIfEmpty` from `main.go`: empty strings become null. -/
def nilIfEmpty (s : Option String) : Option String :=
  match s with
  | none => none
  | some v => if v = "" then none else some v

/-- The guard `len(country.Currencies) > 0 && country.Currencies[0]["code"] != ""`:
the derived currency code, when present. -/
def firstCurrencyCode (cs : List (List (String × String))) : Option String :=
  match cs with
  | [] => none
  | m :: _ =>
    let code := mapGet m "code"
    if code = "" then none else some code

/-- Body of the per-country processing in `refreshCountries`: builds the
`dbCountry` row from one upstream record, the rate table, the drawn
multiplier `m` and the batch timestamp `now`. -/
def buildRow (rates : List (String × ℚ)) (m : ℚ) (now : Nat)
    (country : RestCountry) : Country :=
  let cd : Option String × Option ℚ × Option ℚ :=
    match firstCurrencyCode country.currencies with
    | some code =>
      match lookupRate rates code with
      | some rate => (some code, some rate, some ((country.population : ℚ) * m / rate))
      | none => (some code, none, none)
    | none => (none, none, some 0)
  { name := country.name
    capital := nilIfEmpty (some country.capital)
    region := nilIfEmpty (some country.region)
    population := country.population
    currencyCode := cd.1
    exchangeRate := cd.2.1
    estimatedGDP := cd.2.2
    flagURL := nilIfEmpty (some country.flag)
    lastRefreshedAt := now }

/-- Whether processing this record draws a random multiplier (the
`rand.Float64()` call sits inside the rate-found branch). -/
def drawsRate (rates : List (String × ℚ)) (country : RestCountry) : Bool :=
  match firstCurrencyCode country.currencies with
  | some code => (lookupRate rates code).isSome
  | none => false

/-- ASCII lowercasing of one character code, as SQL `LOWER` acts on each
letter (A–Z ↦ a–z, everything else unchanged). -/
def lowerCode (n : Nat) : Nat := if 65 ≤ n ∧ n ≤ 90 then n + 32 else n

/-- `LOWER(s)`: the lowercased character codes of a string. -/
def lowerStr (s : String) : List Nat :=
  s.data.map (fun c => lowerCode c.toNat)

/-- `LOWER(name) = LOWER(?)` comparison used by get, delete and upsert. -/
def nameMatches (q : String) (c : Country) : Bool :=
  lowerStr c.name == lowerStr q

/-- GORM `Updates` with a struct: a field of the new row is written only
when it is non-zero (non-nil pointer, nonempty string, nonzero integer,
nonzero time); otherwise the existing value is kept. -/
def gormUpdates (old new : Country) : Country :=
  { name := if new.name = "" then old.name else new.name
    capital := if new.capital = none then old.capital else new.capital
    region := if new.region = none then old.region else new.region
    population := if new.population = 0 then old.population else new.population
    currencyCode := if new.currencyCode = none then old.currencyCode else new.currencyCode
    exchangeRate := if new.exchangeRate = none then old.exchangeRate else new.exchangeRate
    estimatedGDP := if new.estimatedGDP = none then old.estimatedGDP else new.estimatedGDP
    flagURL := if new.flagURL = none then old.flagURL else new.flagURL
    lastRefreshedAt := if new.lastRefreshedAt = 0 then old.lastRefreshedAt
      else new.lastRefreshedAt }

/-- Replace the first row matching the new row's name (case-insensitively)
by the GORM-merged update. -/
def updateFirst (store : List Country) (row : Country) : List Country :=
  match store with
  | [] => []
  | c :: rest =>
    if nameMatches row.name c then gormUpdates c row :: rest
    else c :: updateFirst rest row

/-- The upsert of `refreshCountries`: `First` by case-insensitive name,
then `Create` on not-found, else `Updates` on the found row. -/
def upsert (store : List Country) (row : Country) : List Country :=
  if store.any (nameMatches row.name) then updateFirst store row
  else store ++ [row]

/-- The processing loop of `refreshCountries`. `k` counts multiplier
draws so far, `i` indexes the current record, and `writeFails i = true`
models the (discarded) failure of the store write for record `i`. -/
def refreshLoop (rates : List (String × ℚ)) (now : Nat) (ms : Nat → ℚ)
    (writeFails : Nat → Bool) :
    List RestCountry → List Country → Nat → Nat → List Country
  | [], store, _, _ => store
  | c :: cs, store, k, i =>
    let row := buildRow rates (ms k) now c
    let store' := if writeFails i then store else upsert store row
    refreshLoop rates now ms writeFails cs store'
      (if drawsRate rates c then k + 1 else k) (i + 1)

/-- Outcome of one outbound HTTP call: a possible transport error, the
HTTP status, and the parsed body on success. -/
structure Upstream (α : Type) where
  transportError : Option String
  status : Nat
  body : α

/-- `fetchCountries` / `fetchExchangeRates` gate: transport failure, then
the non-200 check producing the status error text. -/
def runFetch {α : Type} (u : Upstream α) : Except String α :=
  match u.transportError with
  | some e => .error e
  | none =>
    if u.status ≠ 200 then .error ("API returned status " ++ toString u.status)
    else .ok u.body

/-- A fetch fails when there is a transport error or a non-200 status. -/
def fetchFails {α : Type} (u : Upstream α) : Bool :=
  u.transportError.isSome || u.status ≠ 200

/-- The error text `runFetch` yields for a failed fetch. -/
def fetchErrMsg {α : Type} (u : Upstream α) : String :=
  match u.transportError with
  | some e => e
  | none => "API returned status " ++ toString u.status

/-- Success payload of `POST /countries/refresh`. -/
structure RefreshSuccess where
  message : String
  totalProcessed : Nat
  lastRefreshedAt : Nat
  deriving Repr, DecidableEq

/-- Response of the refresh handler: a 503 error body or the success body. -/
inductive RefreshResult where
  | failure (status : Nat) (error : String) (details : String)
  | success (payload : RefreshSuccess)
  deriving Repr, DecidableEq

/-- The `refreshCountries` handler. Returns the final store, the HTTP
response and the log lines. `imgResult` is the outcome of
`generateSummaryImage`, whose failure is only logged. -/
def refreshCountries (store : List Country)
    (cu : Upstream (List RestCountry)) (ru : Upstream (List (String × ℚ)))
    (ms : Nat → ℚ) (writeFails : Nat → Bool) (now : Nat)
    (imgResult : Except String Unit) :
    List Country × RefreshResult × List String :=
  match runFetch cu with
  | .error e =>
    (store, .failure 503 "External data source unavailable"
      ("Could not fetch data from restcountries API: " ++ e), [])
  | .ok countries =>
    match runFetch ru with
    | .error e =>
      (store, .failure 503 "External data source unavailable"
        ("Could not fetch data from exchange rates API: " ++ e), [])
    | .ok rates =>
      let finalStore := refreshLoop rates now ms writeFails countries store 0 0
      let logs := match imgResult with
        | .error e => ["Failed to generate summary image: " ++ e]
        | .ok _ => []
      (finalStore,
        .success { message := "Countries refreshed successfully"
                   totalProcessed := countries.length
                   lastRefreshedAt := now }, logs)

/-- Insertion into a list sorted by `le` (used to model `ORDER BY`). -/
def insertSorted (le : Country → Country → Bool) (a : Country) :
    List Country → List Country
  | [] => [a]
  | b :: rest => if le a b then a :: b :: rest else b :: insertSorted le a rest

/-- Stable insertion sort by `le`. -/
def sortRows (le : Country → Country → Bool) : List Country → List Country
  | [] => []
  | a :: rest => insertSorted le a (sortRows le rest)

/-- MySQL ordering on a nullable column, ascending: NULL sorts first. -/
def optRatLe (x y : Option ℚ) : Bool :=
  match x, y with
  | none, _ => true
  | some _, none => false
  | some a, some b => a ≤ b

/-- Name-ascending comparison, the default `ORDER BY name ASC`:
lexicographic order on the characters (`String.le_iff_toList_le`). -/
def nameAsc (a b : Country) : Bool := a.name.data ≤ b.name.data

/-- Region/currency filters of `getCountries`; an empty query value means
the filter is absent. -/
def applyFilters (store : List Country) (region currency : String) :
    List Country :=
  let q1 := if region = "" then store
    else store.filter (fun c => c.region == some region)
  if currency = "" then q1
  else q1.filter (fun c => c.currencyCode == some currency)

/-- The `getCountries` handler: filters then the sort switch, whose
default branch orders by name ascending. -/
def getCountries (store : List Country) (region currency sortKey : String) :
    List Country :=
  let q := applyFilters store region currency
  if sortKey = "gdp_desc" then
    sortRows (fun a b => optRatLe b.estimatedGDP a.estimatedGDP) q
  else if sortKey = "gdp_asc" then
    sortRows (fun a b => optRatLe a.estimatedGDP b.estimatedGDP) q
  else if sortKey = "population_desc" then
    sortRows (fun a b => b.population ≤ a.population) q
  else if sortKey = "population_asc" then
    sortRows (fun a b => a.population ≤ b.population) q
  else
    sortRows nameAsc q

/-- The `getCountryByName` handler: first row matching case-insensitively,
`none` meaning the 404 response. -/
def getCountryByName (store : List Country) (name : String) : Option Country :=
  store.find? (nameMatches name)

/-- Remove the first row matching the name case-insensitively. -/
def removeFirst (store : List Country) (name : String) : List Country :=
  match store with
  | [] => []
  | c :: rest =>
    if nameMatches name c then rest else c :: removeFirst rest name

/-- The `deleteCountry` handler: the store after the request and whether
the row was found (`false` meaning the 404 response). -/
def deleteCountry (store : List Country) (name : String) :
    List Country × Bool :=
  if store.any (nameMatches name) then (removeFirst store name, true)
  else (store, false)

/-- HTTP methods used by the service. -/
inductive Method where
  | get | post | delete
  deriving Repr, DecidableEq

/-- A path segment of a route pattern: a literal or a `:name` parameter. -/
inductive Seg where
  | lit (s : String)
  | param (s : String)
  deriving Repr, DecidableEq

/-- The six handlers registered in `main`. -/
inductive Handler where
  | refreshCountries | getCountries | getCountriesImage
  | getCountryByName | deleteCountry | getStatus
  deriving Repr, DecidableEq

/-- The route table, in the registration order of `main`. -/
def routes : List (Method × List Seg × Handler) :=
  [(.post, [.lit "countries", .lit "refresh"], .refreshCountries),
   (.get, [.lit "countries"], .getCountries),
   (.get, [.lit "countries", .lit "image"], .getCountriesImage),
   (.get, [.lit "countries", .param "name"], .getCountryByName),
   (.delete, [.lit "countries", .param "name"], .deleteCountry),
   (.get, [.lit "status"], .getStatus)]

/-- Whether a route pattern matches a concrete path, segment by segment. -/
def matchSegs : List Seg → List String → Bool
  | [], [] => true
  | .lit s :: ps, x :: xs => s == x && matchSegs ps xs
  | .param _ :: ps, _ :: xs => matchSegs ps xs
  | _, _ => false

/-- Dispatch: the first registered route whose method and pattern match. -/
def dispatch (m : Method) (path : List String) : Option Handler :=
  (routes.find? (fun r => r.1 == m && matchSegs r.2.1 path)).map
    (fun r => r.2.2)

/-! ## Sample data used by witnesses and counterexamples -/

/-- A well-formed upstream record whose currency resolves. -/
def sampleNigeria : RestCountry :=
  { name := "Nigeria", capital := "Abuja", region := "Africa",
    population := 200000000, flag := "https://flagcdn.com/ng.svg",
    currencies := [[("code", "NGN"), ("name", "Naira")]] }

/-- An upstream record with a nonempty currency list whose first entry has
no "code" key, so the derived currency code is absent. -/
def sampleAtlantis : RestCountry :=
  { name := "Atlantis", capital := "", region := "", population := 5,
    flag := "", currencies := [[("name", "Doubloon")]] }

/-! ## Helper lemmas -/

theorem nameMatches_ext (q1 q2 : String) (hq : lowerStr q1 = lowerStr q2) :
    nameMatches q1 = nameMatches q2 := by
  funext c
  simp [nameMatches, hq]

theorem removeFirst_congr (store : List Country) (q1 q2 : String)
    (hq : lowerStr q1 = lowerStr q2) :
    removeFirst store q1 = removeFirst store q2 := by
  induction store with
  | nil => rfl
  | cons c rest ih => simp [removeFirst, nameMatches_ext q1 q2 hq, ih]

theorem updateFirst_length (store : List Country) (row : Country) :
    (updateFirst store row).length = store.length := by
  induction store with
  | nil => rfl
  | cons c rest ih =>
    by_cases h : nameMatches row.name c
    · simp [updateFirst, h]
    · simp [updateFirst, h, ih]

theorem runFetch_of_fails {α : Type} (u : Upstream α)
    (h : fetchFails u = true) :
    runFetch u = Except.error (fetchErrMsg u) := by
  unfold runFetch fetchFails fetchErrMsg at *
  cases hu : u.transportError with
  | some e => simp [hu]
  | none =>
    simp [hu] at h ⊢
    simp [h]

theorem runFetch_of_ok {α : Type} (u : Upstream α)
    (h : fetchFails u = false) :
    runFetch u = Except.ok u.body := by
  unfold runFetch fetchFails at *
  cases hu : u.transportError with
  | some e => simp [hu] at h
  | none =>
    simp [hu] at h ⊢
    simp [h]

/-! ## Claim theorems -/

/-- Claim C6: for any value of the sort parameter outside the four-element
enumeration (including the absent value, the empty string), the list
endpoint returns the filtered rows ordered by name ascending — the switch
silently falls through to the default ordering, producing no error. -/
theorem unknown_sort_defaults_to_name_asc (store : List Country)
    (region currency sortKey : String)
    (h1 : sortKey ≠ "gdp_desc") (h2 : sortKey ≠ "gdp_asc")
    (h3 : sortKey ≠ "population_desc") (h4 : sortKey ≠ "population_asc") :
    getCountries store region currency sortKey =
      sortRows nameAsc (applyFilters store region currency) := by
  simp [getCountries, h1, h2, h3, h4]

/-- Witness for C6 at the unrecognized key "banana": the handler returns
the rows of a concrete two-row store in name-ascending order. -/
theorem unknown_sort_defaults_to_name_asc_witness :
    getCountries
      [⟨"Benin", none, none, 13000000, none, none, none, none, 1⟩,
       ⟨"Albania", none, none, 2800000, none, none, none, none, 1⟩]
      "" "" "banana" =
    sortRows nameAsc (applyFilters
      [⟨"Benin", none, none, 13000000, none, none, none, none, 1⟩,
       ⟨"Albania", none, none, 2800000, none, none, none, none, 1⟩] "" "") ∧
    getCountries
      [⟨"Benin", none, none, 13000000, none, none, none, none, 1⟩,
       ⟨"Albania", none, none, 2800000, none, none, none, none, 1⟩]
      "" "" "banana" =
      [⟨"Albania", none, none, 2800000, none, none, none, none, 1⟩,
       ⟨"Benin", none, none, 13000000, none, none, none, none, 1⟩] :=
  ⟨unknown_sort_defaults_to_name_asc _ "" "" "banana"
      (by decide) (by decide) (by decide) (by decide),
    by decide⟩

/-- Claim C9: the image route is registered before the by-name route, so a
GET for the literal name "image" always dispatches to the summary-image
handler and never to get-by-name (a stored country named "image" is
unreachable by GET), while any other name dispatches to get-by-name and
DELETE on "image" still dispatches to delete-by-name. -/
theorem image_route_shadows_get_by_name (name : String)
    (hname : name ≠ "image") :
    dispatch .get ["countries", "image"] = some .getCountriesImage ∧
    dispatch .delete ["countries", "image"] = some .deleteCountry ∧
    dispatch .get ["countries", name] = some .getCountryByName := by
  refine ⟨by decide, by decide, ?_⟩
  have h8 : ¬("image" = name) := fun e => hname e.symm
  have h9 : (("image" : String) == name) = false := beq_eq_false_iff_ne.mpr h8
  have h10 : (Method.post == Method.get) = false := by rfl
  simp +decide [dispatch, routes, matchSegs, List.find?, h9, h10]

/-- Witness for C9 at the concrete name "Nigeria". -/
theorem image_route_shadows_get_by_name_witness :
    dispatch .get ["countries", "image"] = some .getCountriesImage ∧
    dispatch .delete ["countries", "image"] = some .deleteCountry ∧
    dispatch .get ["countries", "Nigeria"] = some .getCountryByName :=
  image_route_shadows_get_by_name "Nigeria" (by decide)

/-- Claim C10: the row built for each upstream record normalizes empty
capital, region and flag strings to null and keeps nonempty values; so an
empty string is never stored in those columns of a freshly built row. -/
theorem empty_strings_normalized_to_null (rates : List (String × ℚ))
    (m : ℚ) (now : Nat) (c : RestCountry) :
    (buildRow rates m now c).capital
        = (if c.capital = "" then none else some c.capital) ∧
    (buildRow rates m now c).region
        = (if c.region = "" then none else some c.region) ∧
    (buildRow rates m now c).flagURL
        = (if c.flag = "" then none else some c.flag) := by
  refine ⟨?_, ?_, ?_⟩ <;> simp [buildRow, nilIfEmpty]

/-- Claim C1: when the derived currency code resolves to a rate, the row
written by the refresh stores estimated GDP = population × m ÷ rate, where
m is the freshly drawn multiplier, assumed (as for the random draw) to lie
in [1000, 2000); the value survives both the insert and the update path of
the upsert. The multiplier is redrawn on each refresh: two multiplier
streams, both within the bounds, can make the same upstream data produce
different stored GDP values. -/
theorem refresh_gdp_formula (rates : List (String × ℚ)) (m : ℚ) (now : Nat)
    (c : RestCountry) (code : String) (rate : ℚ)
    (hm1 : 1000 ≤ m) (hm2 : m < 2000)
    (hcode : firstCurrencyCode c.currencies = some code)
    (hrate : lookupRate rates code = some rate) :
    ((buildRow rates m now c).estimatedGDP
        = some ((c.population : ℚ) * m / rate) ∧ 1000 ≤ m ∧ m < 2000) ∧
    (∀ old, (gormUpdates old (buildRow rates m now c)).estimatedGDP
        = some ((c.population : ℚ) * m / rate)) ∧
    (∃ (countries : List RestCountry) (rts : List (String × ℚ))
        (ms1 ms2 : Nat → ℚ) (t : Nat),
      (∀ k, 1000 ≤ ms1 k ∧ ms1 k < 2000) ∧
      (∀ k, 1000 ≤ ms2 k ∧ ms2 k < 2000) ∧
      refreshLoop rts t ms1 (fun _ => false) countries [] 0 0 ≠
        refreshLoop rts t ms2 (fun _ => false) countries [] 0 0) := by
  have hb : (buildRow rates m now c).estimatedGDP
      = some ((c.population : ℚ) * m / rate) := by
    simp [buildRow, hcode, hrate]
  refine ⟨⟨hb, hm1, hm2⟩, ?_, ?_⟩
  · intro old
    simp [gormUpdates, hb]
  · refine ⟨[sampleNigeria], [("NGN", 1600)],
      fun _ => 1000, fun _ => 1500, 1, ?_, ?_, ?_⟩
    · intro k; norm_num
    · intro k; norm_num
    · simp +decide [refreshLoop, buildRow, firstCurrencyCode, mapGet,
        lookupRate, upsert, updateFirst, gormUpdates, nameMatches, drawsRate,
        nilIfEmpty, sampleNigeria, Country.mk.injEq]
      all_goals norm_num

/-- Witness for C1 at a concrete record whose currency resolves:
population 200000000, code NGN, rate 1600, multiplier 1000. -/
theorem refresh_gdp_formula_witness :
    ((buildRow [("NGN", 1600)] 1000 7 sampleNigeria).estimatedGDP
        = some ((sampleNigeria.population : ℚ) * 1000 / 1600) ∧
      (1000 : ℚ) ≤ 1000 ∧ (1000 : ℚ) < 2000) ∧
    (∀ old,
      (gormUpdates old (buildRow [("NGN", 1600)] 1000 7 sampleNigeria)).estimatedGDP
        = some ((sampleNigeria.population : ℚ) * 1000 / 1600)) ∧
    (∃ (countries : List RestCountry) (rts : List (String × ℚ))
        (ms1 ms2 : Nat → ℚ) (t : Nat),
      (∀ k, 1000 ≤ ms1 k ∧ ms1 k < 2000) ∧
      (∀ k, 1000 ≤ ms2 k ∧ ms2 k < 2000) ∧
      refreshLoop rts t ms1 (fun _ => false) countries [] 0 0 ≠
        refreshLoop rts t ms2 (fun _ => false) countries [] 0 0) :=
  refresh_gdp_formula [("NGN", 1600)] 1000 7 sampleNigeria "NGN" 1600
    (by norm_num) (by norm_num) (by rfl) (by rfl)

/-- Claim C2 counterexample: the record `sampleAtlantis` has a nonempty
currency list whose first entry carries no code, so its derived currency
code is absent while the currency list is not empty; the claim then
demands a null estimated GDP, but the refresh stores estimated GDP zero
for it. -/
theorem currency_absent_counterexample :
    firstCurrencyCode sampleAtlantis.currencies = none ∧
    sampleAtlantis.currencies ≠ [] ∧
    (refreshLoop [] 1 (fun _ => 1000) (fun _ => false) [sampleAtlantis]
        [] 0 0).map Country.estimatedGDP = [some 0] := by
  refine ⟨by rfl, by decide, ?_⟩
  simp +decide [refreshLoop, buildRow, firstCurrencyCode, mapGet, lookupRate,
    upsert, updateFirst, gormUpdates, nameMatches, drawsRate, nilIfEmpty,
    sampleAtlantis]

/-- Claim C2 as amended: whenever the derived currency code is absent —
the currency list empty, or its first entry lacking a nonempty code — the
row the refresh builds has currency code and exchange rate null and
estimated GDP zero (not null); a refresh on a store without a
case-insensitive name match inserts exactly this row. -/
theorem currency_absent_rate_null_gdp_zero (rates : List (String × ℚ))
    (m : ℚ) (now : Nat) (c : RestCountry)
    (h : firstCurrencyCode c.currencies = none) :
    (buildRow rates m now c).currencyCode = none ∧
    (buildRow rates m now c).exchangeRate = none ∧
    (buildRow rates m now c).estimatedGDP = some 0 ∧
    ∀ store : List Country, store.any (nameMatches c.name) = false →
      upsert store (buildRow rates m now c) = store ++ [buildRow rates m now c] := by
  refine ⟨by simp [buildRow, h], by simp [buildRow, h], by simp [buildRow, h], ?_⟩
  intro store hs
  have hn : (buildRow rates m now c).name = c.name := by simp [buildRow]
  simp [upsert, hn, hs]

/-- Witness for C2 at `sampleAtlantis` and the empty store. -/
theorem currency_absent_rate_null_gdp_zero_witness :
    (buildRow [] 1000 1 sampleAtlantis).currencyCode = none ∧
    (buildRow [] 1000 1 sampleAtlantis).exchangeRate = none ∧
    (buildRow [] 1000 1 sampleAtlantis).estimatedGDP = some 0 ∧
    ∀ store : List Country, store.any (nameMatches sampleAtlantis.name) = false →
      upsert store (buildRow [] 1000 1 sampleAtlantis)
        = store ++ [buildRow [] 1000 1 sampleAtlantis] :=
  currency_absent_rate_null_gdp_zero [] 1000 1 sampleAtlantis (by rfl)

/-- Claim C3 counterexample: a first refresh stores rate 1600 and a GDP
for Nigeria; a second refresh whose rate table has no entry for NGN then
leaves that row with its old exchange rate and estimated GDP — the struct
update skips the nil fields — while the claim demands both become null. -/
theorem stale_rate_counterexample :
    (refreshLoop [] 2 (fun _ => 1000) (fun _ => false) [sampleNigeria]
        (refreshLoop [("NGN", 1600)] 1 (fun _ => 1000) (fun _ => false)
          [sampleNigeria] [] 0 0) 0 0).map
      (fun c => (c.currencyCode, c.exchangeRate, c.estimatedGDP))
      = [(some "NGN", some 1600, some 125000000)] := by
  simp +decide [refreshLoop, buildRow, firstCurrencyCode, mapGet, lookupRate,
    upsert, updateFirst, gormUpdates, nameMatches, drawsRate, nilIfEmpty,
    sampleNigeria]
  all_goals norm_num

/-- Claim C3 as amended: when the currency code is present but has no
entry in the fetched rate table, the row built for the upsert has
exchange rate and estimated GDP null, and a refresh inserting it (no
case-insensitive name match in the store) stores exactly those nulls; but
on the update path the struct update skips nil fields, so a pre-existing
row keeps its previously stored exchange rate and estimated GDP. -/
theorem unmatched_rate_null_on_insert_kept_on_update
    (rates : List (String × ℚ)) (m : ℚ) (now : Nat) (c : RestCountry)
    (code : String)
    (hcode : firstCurrencyCode c.currencies = some code)
    (hrate : lookupRate rates code = none) :
    (buildRow rates m now c).exchangeRate = none ∧
    (buildRow rates m now c).estimatedGDP = none ∧
    (∀ store : List Country, store.any (nameMatches c.name) = false →
      upsert store (buildRow rates m now c)
        = store ++ [buildRow rates m now c]) ∧
    (∀ old, (gormUpdates old (buildRow rates m now c)).exchangeRate
          = old.exchangeRate ∧
        (gormUpdates old (buildRow rates m now c)).estimatedGDP
          = old.estimatedGDP) := by
  have h1 : (buildRow rates m now c).exchangeRate = none := by
    simp [buildRow, hcode, hrate]
  have h2 : (buildRow rates m now c).estimatedGDP = none := by
    simp [buildRow, hcode, hrate]
  refine ⟨h1, h2, ?_, ?_⟩
  · intro store hs
    have hn : (buildRow rates m now c).name = c.name := by simp [buildRow]
    simp [upsert, hn, hs]
  · intro old
    constructor <;> simp [gormUpdates, h1, h2]

/-- Witness for C3 at `sampleNigeria` against an empty rate table. -/
theorem unmatched_rate_null_on_insert_kept_on_update_witness :
    (buildRow [] 1000 2 sampleNigeria).exchangeRate = none ∧
    (buildRow [] 1000 2 sampleNigeria).estimatedGDP = none ∧
    (∀ store : List Country,
      store.any (nameMatches sampleNigeria.name) = false →
      upsert store (buildRow [] 1000 2 sampleNigeria)
        = store ++ [buildRow [] 1000 2 sampleNigeria]) ∧
    (∀ old, (gormUpdates old (buildRow [] 1000 2 sampleNigeria)).exchangeRate
          = old.exchangeRate ∧
        (gormUpdates old (buildRow [] 1000 2 sampleNigeria)).estimatedGDP
          = old.estimatedGDP) :=
  unmatched_rate_null_on_insert_kept_on_update [] 1000 2 sampleNigeria "NGN"
    (by rfl) (by rfl)

/-- Claim C4: if either outbound fetch fails — transport error or non-200
status — the refresh returns with the store untouched and a 503 response
whose details name the failed source (the countries source, checked
first, else the exchange-rate source). -/
theorem fetch_failure_aborts_refresh (store : List Country)
    (cu : Upstream (List RestCountry)) (ru : Upstream (List (String × ℚ)))
    (ms : Nat → ℚ) (wf : Nat → Bool) (now : Nat) (img : Except String Unit)
    (h : fetchFails cu = true ∨ fetchFails ru = true) :
    (refreshCountries store cu ru ms wf now img).1 = store ∧
    (refreshCountries store cu ru ms wf now img).2.1 =
      (if fetchFails cu then
        RefreshResult.failure 503 "External data source unavailable"
          ("Could not fetch data from restcountries API: " ++ fetchErrMsg cu)
      else
        RefreshResult.failure 503 "External data source unavailable"
          ("Could not fetch data from exchange rates API: " ++ fetchErrMsg ru)) := by
  by_cases hcu : fetchFails cu = true
  · have hc := runFetch_of_fails cu hcu
    constructor <;> simp [refreshCountries, hc, hcu]
  · have hru : fetchFails ru = true := h.resolve_left hcu
    have hc := runFetch_of_ok cu (Bool.eq_false_iff.mpr hcu)
    have hr := runFetch_of_fails ru hru
    constructor <;>
      simp [refreshCountries, hc, hr, Bool.eq_false_iff.mpr hcu]

/-- Witness for C4: the countries source answers HTTP 500; the store
(one arbitrary row) is unchanged and the 503 details name the
restcountries source with the status text. -/
theorem fetch_failure_aborts_refresh_witness :
    (refreshCountries [⟨"Ghana", none, none, 33000000, none, none, none, none, 1⟩]
        ⟨none, 500, []⟩ ⟨none, 200, []⟩ (fun _ => 1000) (fun _ => false) 2
        (Except.ok ())).1
      = [⟨"Ghana", none, none, 33000000, none, none, none, none, 1⟩] ∧
    (refreshCountries [⟨"Ghana", none, none, 33000000, none, none, none, none, 1⟩]
        ⟨none, 500, []⟩ ⟨none, 200, []⟩ (fun _ => 1000) (fun _ => false) 2
        (Except.ok ())).2.1 =
      (if fetchFails (⟨none, 500, []⟩ : Upstream (List RestCountry)) then
        RefreshResult.failure 503 "External data source unavailable"
          ("Could not fetch data from restcountries API: "
            ++ fetchErrMsg (⟨none, 500, []⟩ : Upstream (List RestCountry)))
      else
        RefreshResult.failure 503 "External data source unavailable"
          ("Could not fetch data from exchange rates API: "
            ++ fetchErrMsg (⟨none, 200, []⟩ : Upstream (List (String × ℚ))))) :=
  fetch_failure_aborts_refresh _ _ _ _ _ _ _ (Or.inl (by rfl))

/-- Claim C5: name matching is case-insensitive for get, delete and the
upsert of refresh: two query names with the same lowercasing give the
same get and delete results; a query lowercasing like a stored name finds
a record; and upserting a row whose name matches a stored row up to case
keeps the row count (it updates in place instead of inserting). -/
theorem name_matching_case_insensitive (store : List Country)
    (q1 q2 : String) (row : Country)
    (hq : lowerStr q1 = lowerStr q2) :
    getCountryByName store q1 = getCountryByName store q2 ∧
    deleteCountry store q1 = deleteCountry store q2 ∧
    (∀ c ∈ store, lowerStr c.name = lowerStr q1 →
      (getCountryByName store q1).isSome = true) ∧
    ((∃ c ∈ store, lowerStr c.name = lowerStr row.name) →
      (upsert store row).length = store.length) := by
  refine ⟨?_, ?_, ?_, ?_⟩
  · simp [getCountryByName, nameMatches_ext q1 q2 hq]
  · simp [deleteCountry, nameMatches_ext q1 q2 hq,
      removeFirst_congr store q1 q2 hq]
  · intro c hc hname
    have hp : nameMatches q1 c = true := by simp [nameMatches, hname]
    simp only [getCountryByName, List.find?_isSome]
    exact ⟨c, hc, hp⟩
  · rintro ⟨c, hc, hn⟩
    have hany : store.any (nameMatches row.name) = true :=
      List.any_eq_true.mpr ⟨c, hc, by simp [nameMatches, hn]⟩
    simp [upsert, hany, updateFirst_length]

/-- Witness for C5: the queries NIGERIA and nigeria against a store
holding one row named Nigeria, and an upsert of a row named nigeria. -/
theorem name_matching_case_insensitive_witness :
    getCountryByName [⟨"Nigeria", none, none, 200000000, none, none, none, none, 1⟩]
        "NIGERIA"
      = getCountryByName [⟨"Nigeria", none, none, 200000000, none, none, none, none, 1⟩]
        "nigeria" ∧
    deleteCountry [⟨"Nigeria", none, none, 200000000, none, none, none, none, 1⟩]
        "NIGERIA"
      = deleteCountry [⟨"Nigeria", none, none, 200000000, none, none, none, none, 1⟩]
        "nigeria" ∧
    (∀ c ∈ [(⟨"Nigeria", none, none, 200000000, none, none, none, none, 1⟩ : Country)],
      lowerStr c.name = lowerStr "NIGERIA" →
      (getCountryByName [⟨"Nigeria", none, none, 200000000, none, none, none, none, 1⟩]
        "NIGERIA").isSome = true) ∧
    ((∃ c ∈ [(⟨"Nigeria", none, none, 200000000, none, none, none, none, 1⟩ : Country)],
      lowerStr c.name
        = lowerStr (⟨"nigeria", none, none, 1, none, none, none, none, 2⟩ : Country).name) →
      (upsert [⟨"Nigeria", none, none, 200000000, none, none, none, none, 1⟩]
          ⟨"nigeria", none, none, 1, none, none, none, none, 2⟩).length
        = [(⟨"Nigeria", none, none, 200000000, none, none, none, none, 1⟩ : Country)].length) :=
  name_matching_case_insensitive
    [⟨"Nigeria", none, none, 200000000, none, none, none, none, 1⟩]
    "NIGERIA" "nigeria" ⟨"nigeria", none, none, 1, none, none, none, none, 2⟩
    (by decide)

/-- Claim C7: when both fetches succeed, a failure of the summary-image
generation is only logged: the refresh response is still the success
payload, the store is as after a successful image write, and the failure
text appears in the log. -/
theorem image_failure_logged_not_surfaced (store : List Country)
    (cu : Upstream (List RestCountry)) (ru : Upstream (List (String × ℚ)))
    (ms : Nat → ℚ) (wf : Nat → Bool) (now : Nat) (e : String)
    (countries : List RestCountry) (rates : List (String × ℚ))
    (hcu : runFetch cu = Except.ok countries)
    (hru : runFetch ru = Except.ok rates) :
    (refreshCountries store cu ru ms wf now (Except.error e)).2.1 =
      RefreshResult.success
        { message := "Countries refreshed successfully"
          totalProcessed := countries.length
          lastRefreshedAt := now } ∧
    (refreshCountries store cu ru ms wf now (Except.error e)).1 =
      (refreshCountries store cu ru ms wf now (Except.ok ())).1 ∧
    (refreshCountries store cu ru ms wf now (Except.error e)).2.2 =
      ["Failed to generate summary image: " ++ e] := by
  refine ⟨?_, ?_, ?_⟩ <;> simp [refreshCountries, hcu, hru]

/-- Witness for C7: one country fetched, the image write fails with
"disk full", and the response is still the success payload. -/
theorem image_failure_logged_not_surfaced_witness :
    (refreshCountries [] ⟨none, 200, [sampleNigeria]⟩
        ⟨none, 200, [("NGN", 1600)]⟩ (fun _ => 1000) (fun _ => false) 3
        (Except.error "disk full")).2.1 =
      RefreshResult.success
        { message := "Countries refreshed successfully"
          totalProcessed := 1
          lastRefreshedAt := 3 } ∧
    (refreshCountries [] ⟨none, 200, [sampleNigeria]⟩
        ⟨none, 200, [("NGN", 1600)]⟩ (fun _ => 1000) (fun _ => false) 3
        (Except.error "disk full")).1 =
      (refreshCountries [] ⟨none, 200, [sampleNigeria]⟩
        ⟨none, 200, [("NGN", 1600)]⟩ (fun _ => 1000) (fun _ => false) 3
        (Except.ok ())).1 ∧
    (refreshCountries [] ⟨none, 200, [sampleNigeria]⟩
        ⟨none, 200, [("NGN", 1600)]⟩ (fun _ => 1000) (fun _ => false) 3
        (Except.error "disk full")).2.2 =
      ["Failed to generate summary image: " ++ "disk full"] :=
  image_failure_logged_not_surfaced [] _ _ _ _ 3 "disk full"
    [sampleNigeria] [("NGN", 1600)] (by rfl) (by rfl)

/-- Claim C8: on a successful refresh, the reported total is the number
of records the countries source returned, for every pattern of per-row
store-write failures — the insert and update errors are discarded, so
failed writes are still counted as processed. -/
theorem total_processed_ignores_write_failures (store : List Country)
    (cu : Upstream (List RestCountry)) (ru : Upstream (List (String × ℚ)))
    (ms : Nat → ℚ) (now : Nat) (img : Except String Unit)
    (countries : List RestCountry) (rates : List (String × ℚ))
    (hcu : runFetch cu = Except.ok countries)
    (hru : runFetch ru = Except.ok rates) :
    ∀ wf : Nat → Bool,
      (refreshCountries store cu ru ms wf now img).2.1 =
        RefreshResult.success
          { message := "Countries refreshed successfully"
            totalProcessed := countries.length
            lastRefreshedAt := now } := by
  intro wf
  simp [refreshCountries, hcu, hru]

/-- Witness for C8: one fetched country whose store write fails on every
row, yet the reported total is 1. -/
theorem total_processed_ignores_write_failures_witness :
    (refreshCountries [] ⟨none, 200, [sampleNigeria]⟩
        ⟨none, 200, [("NGN", 1600)]⟩ (fun _ => 1000) (fun _ => true) 4
        (Except.ok ())).2.1 =
      RefreshResult.success
        { message := "Countries refreshed successfully"
          totalProcessed := 1
          lastRefreshedAt := 4 } :=
  total_processed_ignores_write_failures [] _ _ _ 4 (Except.ok ())
    [sampleNigeria] [("NGN", 1600)] (by rfl) (by rfl) (fun _ => true)
